import Mathlib

/-!
# Verification of the entrypoint_gen driver-generation pipeline

This file is a shallow embedding, in Lean 4, of the core of the
`entrypoint_gen` repository: entrypoint detection
(`find_entrypoints.py`), global/external usage analysis
(`find_globals_and_externs.py`), driver synthesis (`generate_driver.py`,
`generate_driver_2.py`), preprocessor-flag recovery
(`preprocess_c_file.py`, and the inlined copy in `main.py`), and the
final driver assembly performed by `main2.py`.

Modelling conventions:

* The libclang translation unit is modelled as explicit data (`TU`,
  `FuncDecl`, `Param`, `RefTarget`): the Python code only queries the
  AST through cursor kind, spelling, `is_definition`, parameter lists,
  type spellings, pointer-ness, constness, variadic-ness, call
  expressions and resolved declaration references, so exactly those
  observations appear as fields.
* `os.path.exists` is modelled by an explicit `fileExists : Bool`
  argument, and the parse outcome by an `Option TU` (the code checks
  `if not tu` after parsing).
* Python string formatting is embedded directly: f-strings become
  string concatenation, `str(n)` of a natural number becomes `natRepr`
  (decimal printing with explicit fuel, so that it evaluates by kernel
  reduction), `sep.join(xs)` becomes `pyJoin`, `s.split(sep)` becomes
  `pySplit`, and `s.startswith(p)` becomes `pyStartswith`.
* Python `set` results are modelled as `Finset String`; Python lists as
  `List`.
-/

/-! ## Utility embeddings of Python primitives -/

/-- Decimal digits of `n`, most significant first, with explicit fuel so
that the definition is structural and evaluates by kernel reduction.
With `fuel > n` this is exactly Python's `str(n)` / f-string rendering
of a nonnegative integer. -/
def natReprAux : Nat → Nat → List Char
  | 0, _ => []
  | fuel + 1, n =>
    if n < 10 then [Nat.digitChar n]
    else natReprAux fuel (n / 10) ++ [Nat.digitChar (n % 10)]

/-- Embedding of Python's decimal rendering `str(n)` for a natural
number. -/
def natRepr (n : Nat) : String :=
  ⟨natReprAux (n + 1) n⟩

/-- Evaluate a digit string back to a number; used to prove that
`natRepr` is injective. -/
def strValAux (l : List Char) : Nat :=
  l.foldl (fun a c => a * 10 + (c.toNat - 48)) 0

/-- Embedding of Python's `sep.join(parts)`. -/
def pyJoin (sep : String) : List String → String
  | [] => ""
  | [s] => s
  | s :: rest => s ++ sep ++ pyJoin sep rest

/-- Embedding of Python's `s.startswith(pre)`. -/
def pyStartswith (s pre : String) : Bool :=
  pre.data.isPrefixOf s.data

/-- Embedding of Python's `s.split(sep)` for a non-empty separator, on
character lists.  The fuel argument (instantiated with the length of
the input) makes the recursion structural; it never runs out because
every step consumes at least one character. -/
def pySplitAux (sep : List Char) : Nat → List Char → List Char → List (List Char)
  | _, acc, [] => [acc.reverse]
  | 0, acc, s => [acc.reverse ++ s]
  | fuel + 1, acc, c :: cs =>
    if sep ≠ [] ∧ sep.isPrefixOf (c :: cs) then
      acc.reverse :: pySplitAux sep fuel [] (List.drop sep.length (c :: cs))
    else
      pySplitAux sep fuel (c :: acc) cs

/-- Embedding of Python's `s.split(sep)` on strings. -/
def pySplit (sep s : String) : List String :=
  (pySplitAux sep.data s.data.length [] s.data).map String.mk

/-- Text strictly after the first occurrence of `sep` in the input, or
`none` when `sep` does not occur.  This is the specification-side
notion used to state where the synthesized `main` body begins. -/
def afterFirstAux (sep : List Char) : List Char → Option (List Char)
  | [] => none
  | c :: cs =>
    if sep.isPrefixOf (c :: cs) then some (List.drop sep.length (c :: cs))
    else afterFirstAux sep cs

/-- String version of `afterFirstAux`. -/
def afterFirst (sep s : String) : Option String :=
  (afterFirstAux sep.data s.data).map String.mk

/-- Everything up to (excluding) the first newline of a string. -/
def firstLineOf (s : String) : String :=
  ⟨s.data.takeWhile (fun c => !(c == '\n'))⟩

/-! ## Data model of the parsed translation unit -/

/-- A function parameter as observed by the generators: its spelling
(`""` when the source parameter is unnamed, which is what
`cursor.spelling` returns), the spelling of its type, whether the type
kind is `POINTER`, and whether the pointee type is const-qualified. -/
structure Param where
  spelling : String
  typeSpelling : String
  isPointer : Bool
  pointeeIsConst : Bool
deriving DecidableEq, Repr

/-- The result-type kind observations made by `generate_driver_2`:
`VOID`, `POINTER`, or anything else. -/
inductive RetKind
  | void
  | pointer
  | other
deriving DecidableEq, Repr

/-- A resolved `DECL_REF_EXPR` target inside a function body, as
observed by `find_globals_and_externs`: either a variable declaration
(with the kind of its semantic parent and its constness), a function
declaration (with its `is_definition` status), or some other
declaration kind. -/
inductive RefTarget
  | var (spelling : String) (parentIsTU : Bool) (isConst : Bool)
  | func (spelling : String) (isDefinition : Bool)
  | otherDecl
deriving DecidableEq, Repr

/-- A `FUNCTION_DECL` cursor: everything the Python code observes about
it.  `calls` lists the spellings of the `CALL_EXPR` nodes inside the
body (in preorder), `refs` lists the resolved `DECL_REF_EXPR` targets
inside the body, and `localVars` lists the spellings of `VAR_DECL`
cursors nested in the body (visible to `walk_preorder` when
`generate_driver_2` scans the whole unit for a variable name). -/
structure FuncDecl where
  spelling : String
  isDefinition : Bool
  params : List Param
  retTypeSpelling : String
  retKind : RetKind
  retPointeeSpelling : String
  isVariadic : Bool
  calls : List String
  refs : List RefTarget
  localVars : List String
deriving DecidableEq, Repr

/-- A top-level declaration of the translation unit. -/
inductive Decl
  | func (fd : FuncDecl)
  | var (spelling : String)
  | otherDecl
deriving DecidableEq, Repr

/-- A parsed translation unit: its top-level declarations in source
order (the order in which `walk_preorder` visits them). -/
structure TU where
  decls : List Decl
deriving DecidableEq, Repr

/-- All `FUNCTION_DECL` cursors of the unit, in preorder. -/
def TU.funcs (tu : TU) : List FuncDecl :=
  tu.decls.filterMap (fun d =>
    match d with
    | Decl.func fd => some fd
    | _ => none)

/-- Spellings of every `VAR_DECL` cursor anywhere in the unit (top
level or local), as seen by the `walk_preorder` scan in
`generate_driver_2`. -/
def TU.allVarSpellings (tu : TU) : List String :=
  tu.decls.flatMap (fun d =>
    match d with
    | Decl.var s => [s]
    | Decl.func fd => fd.localVars
    | Decl.otherDecl => [])

/-! ## Entrypoint detection (`find_entrypoints.py` lines 14-55, and the
identical copy in `main.py` lines 67-84) -/

/-- The multiset of callee names collected by the nested loops of
`find_entrypoints`: for every function definition whose name is in the
analyzed list, every `CALL_EXPR` spelling that is itself in the list. -/
def calleesList (tu : TU) (F : List String) : List String :=
  (tu.funcs.filter (fun fd => fd.isDefinition && decide (fd.spelling ∈ F))).flatMap
    (fun fd => fd.calls.filter (fun c => decide (c ∈ F)))

/-- Embedding of `find_entrypoints(preprocessed_file_path,
function_names)`.  `fileExists` models `os.path.exists`, `parsed`
models the parse outcome, `F` is `function_names`.  On either error the
function returns the empty set; otherwise it returns
`set(function_names) - callees`. -/
def find_entrypoints (fileExists : Bool) (parsed : Option TU) (F : List String) :
    Finset String :=
  if fileExists then
    match parsed with
    | some tu => F.toFinset \ (calleesList tu F).toFinset
    | none => ∅
  else ∅

/-- Specification-side set from the claim: the one-hop callees
`{n ∈ F | some function defined in the unit whose name is in F contains
a call expression targeting n}`. -/
def oneHopCallees (tu : TU) (F : List String) : Finset String :=
  (F.filter (fun n =>
    tu.funcs.any (fun fd =>
      fd.isDefinition && decide (fd.spelling ∈ F) && decide (n ∈ fd.calls)))).toFinset

/-! ## Usage analysis (`find_globals_and_externs.py` lines 14-61 and
`standalone_driver_gen.py` lines 108-154) -/

/-- Result record of `find_globals_and_externs` (the Python code
returns a dict with keys `global_vars` and `external_funcs`). -/
structure UsageResult where
  global_vars : Finset String
  external_funcs : Finset String
deriving DecidableEq

/-- Classification of one reference as a used global variable: the
referenced declaration is a `VAR_DECL` whose semantic parent is the
translation unit.  `excludeConst = true` is the behavior of
`find_globals_and_externs.py` (which additionally requires the type not
to be const-qualified); `excludeConst = false` is the behavior of the
copy in `standalone_driver_gen.py` (no constness check). -/
def refGlobalVar (excludeConst : Bool) (r : RefTarget) : Option String :=
  match r with
  | RefTarget.var s parentIsTU isConst =>
    if parentIsTU && (!excludeConst || !isConst) then some s else none
  | _ => none

/-- Classification of one reference as a used external function: the
referenced declaration is a `FUNCTION_DECL` that is not a definition
and whose spelling is not in the analyzed set. -/
def refExternFunc (F : List String) (r : RefTarget) : Option String :=
  match r with
  | RefTarget.func s isDef => if !isDef && !(decide (s ∈ F)) then some s else none
  | _ => none

/-- Embedding of `find_globals_and_externs(preprocessed_file_path,
function_names)`.  The two const-exclusion behaviors present in the
source are selected by `excludeConst` (see `refGlobalVar`). -/
def find_globals_and_externs (excludeConst : Bool) (fileExists : Bool)
    (parsed : Option TU) (F : List String) : UsageResult :=
  if fileExists then
    match parsed with
    | some tu =>
      let analyzed := tu.funcs.filter (fun fd => fd.isDefinition && decide (fd.spelling ∈ F))
      { global_vars :=
          (analyzed.flatMap (fun fd => fd.refs.filterMap (refGlobalVar excludeConst))).toFinset
        external_funcs :=
          (analyzed.flatMap (fun fd => fd.refs.filterMap (refExternFunc F))).toFinset }
    | none => ⟨∅, ∅⟩
  else ⟨∅, ∅⟩

/-- All resolved references occurring in any function of the unit. -/
def allRefs (tu : TU) : List RefTarget :=
  tu.funcs.flatMap (fun fd => fd.refs)

/-- Whether two references clash in the sense forbidden by C's
file-scope name space: the first resolves to a translation-unit-level
variable and the second to a function of the same name. -/
def varFuncClash : RefTarget → RefTarget → Bool
  | RefTarget.var s parentIsTU _, RefTarget.func t _ => parentIsTU && s == t
  | _, _ => false

/-! ## Entrypoint-call generation (`generate_driver.py` lines 16-84,
and the comment-free copy in `main.py` lines 87-116) -/

/-- The declaration line emitted for one parameter:
`<type spelling> <name>;` at main-body indentation. -/
def paramDeclLine (p : Param) (nm : String) : String :=
  "        " ++ p.typeSpelling ++ " " ++ nm ++ ";"

/-- The unconstrained-fill line emitted for one parameter.  For a
pointer-typed parameter the generated C writes
`max(16, sizeof(*<name>))` bytes at `&<name>` (the address of the
pointer variable itself); otherwise it writes `sizeof(<name>)` bytes at
`&<name>`. -/
def paramFillLine (p : Param) (nm : String) : String :=
  if p.isPointer then
    "        make_unknown(&" ++ nm ++ ", max(16, sizeof(*" ++ nm ++ ")));"
  else
    "        make_unknown(&" ++ nm ++ ", sizeof(" ++ nm ++ "));"

/-- The per-parameter loop of `generate_driver` (lines 66-76): it
threads the `arg_names` accumulator (an unnamed parameter is given the
synthesized name `arg_<len(arg_names)>`) and appends the declaration
and fill lines for each parameter in order. -/
def entryParamFold : List Param → List String → List String → List String × List String
  | [], argNames, lines => (argNames, lines)
  | p :: rest, argNames, lines =>
    let nm := if p.spelling = "" then "arg_" ++ natRepr argNames.length else p.spelling
    entryParamFold rest (argNames ++ [nm]) (lines ++ [paramDeclLine p nm, paramFillLine p nm])

/-- The block of lines `generate_driver` emits for one entrypoint whose
definition was found: an opening brace, the per-parameter lines, the
single call with the collected argument names, and a closing brace. -/
def entryBlock (name : String) (fd : FuncDecl) : List String :=
  let r := entryParamFold fd.params [] ["    \x7b"]
  r.2 ++ ["        " ++ name ++ "(" ++ pyJoin ", " r.1 ++ ");", "    \x7d"]

/-- The `function_decls` dict lookup of `generate_driver` (lines
49-52): the dict maps each definition's spelling to its cursor, later
definitions overwriting earlier ones, so lookup returns the last
matching definition. -/
def lookupDef (tu : TU) (name : String) : Option FuncDecl :=
  (tu.funcs.filter (fun fd => fd.isDefinition && fd.spelling == name)).getLast?

/-- Lines emitted by `generate_driver` for one requested entrypoint
name: a skip comment when the definition lookup misses, otherwise the
entrypoint block. -/
def entryLines (tu : TU) (e : String) : List String :=
  match lookupDef tu e with
  | none =>
    ["    // Warning: Could not find definition for entrypoint '" ++ e ++ "'. Skipping."]
  | some fd => entryBlock e fd

/-- All lines of the driver produced by `generate_driver`: fixed
header, `int main() {`, the per-entrypoint blocks, `return 0;`, and the
closing brace. -/
def generate_driver_lines (cFileName : String) (tu : TU) (entrypoints : List String) :
    List String :=
  ["#include \"" ++ cFileName ++ "\"\n",
   "// Forward declaration for the function to create unknown values.",
   "void make_unknown(void *data, unsigned long size);\n",
   "// A simple max macro.",
   "#define max(a,b) (((a) > (b)) ? (a) : (b))\n",
   "int main() \x7b"]
  ++ entrypoints.flatMap (entryLines tu)
  ++ ["    return 0;", "\x7d"]

/-- Embedding of `generate_driver(c_file_name, preprocessed_file_path,
entrypoints)`: the joined driver text, or `""` on a missing file or a
failed parse. -/
def generate_driver (cFileName : String) (fileExists : Bool) (parsed : Option TU)
    (entrypoints : List String) : String :=
  if fileExists then
    match parsed with
    | some tu => pyJoin "\n" (generate_driver_lines cFileName tu entrypoints)
    | none => ""
  else ""

/-- Specification-side argument names for an entrypoint block, indexed
by declaration position starting at `k`: the parameter's own name, or
`arg_<position>` when unnamed. -/
def specArgNamesFrom : Nat → List Param → List String
  | _, [] => []
  | k, p :: rest =>
    (if p.spelling = "" then "arg_" ++ natRepr k else p.spelling) :: specArgNamesFrom (k + 1) rest

/-- Specification-side per-parameter lines: for each parameter in
declaration order, its local declaration immediately followed by its
unconstrained-fill request. -/
def specParamLinesFrom : Nat → List Param → List String
  | _, [] => []
  | k, p :: rest =>
    let nm := if p.spelling = "" then "arg_" ++ natRepr k else p.spelling
    paramDeclLine p nm :: paramFillLine p nm :: specParamLinesFrom (k + 1) rest

/-! ## Environment-stub generation (`generate_driver_2.py` lines
14-108, and the variadic-free copy in `standalone_driver_gen.py` lines
269-358) -/

/-- The parameter name used inside a stub: the parameter's spelling, or
`arg<index>` when unnamed (note: no underscore, unlike the entrypoint
generator). -/
def stubParamName (p : Param) (i : Nat) : String :=
  if p.spelling = "" then "arg" ++ natRepr i else p.spelling

/-- The `<type> <name>` items of a stub's parameter list, indexed from
`i` (the Python loop increments `i` once per `PARM_DECL` child, so the
index equals the declaration position). -/
def stubParamDeclsFrom : Nat → List Param → List String
  | _, [] => []
  | i, p :: rest => (p.typeSpelling ++ " " ++ stubParamName p i) :: stubParamDeclsFrom (i + 1) rest

/-- The parameter list of a stub signature in `generate_driver_2.py`:
the per-parameter items, plus a trailing variadic marker when the
declared function type is a variadic `FUNCTIONPROTO` (`"..."`, or
`"void, ..."` when there are no named parameters). -/
def stubSigParamList (fd : FuncDecl) : List String :=
  let base := stubParamDeclsFrom 0 fd.params
  if fd.isVariadic then
    (if base = [] then ["void, ..."] else base ++ ["..."])
  else base

/-- The body lines of a stub that handle the parameters (second loop of
`generate_driver_2`): assert each parameter initialized; for a pointer
parameter additionally assert the pointee initialized and, when the
pointee is not const-qualified, overwrite it with fresh unconstrained
bytes. -/
def stubParamBodyLinesFrom : Nat → List Param → List String
  | _, [] => []
  | i, p :: rest =>
    (("    check_initialized(" ++ stubParamName p i ++ ");") ::
      (if p.isPointer then
        ["    check_initialized(*" ++ stubParamName p i ++ ");"]
        ++ (if p.pointeeIsConst then []
            else ["    make_unknown(" ++ stubParamName p i ++ ", sizeof(*" ++ stubParamName p i ++ "));"])
      else []))
    ++ stubParamBodyLinesFrom (i + 1) rest

/-- The return-value lines of a stub: nothing for `void`; for a pointer
return type allocate pointee-sized storage, fill it, and return it; for
any other non-void type fill a local and return it. -/
def stubRetLines (fd : FuncDecl) : List String :=
  match fd.retKind with
  | RetKind.void => []
  | RetKind.pointer =>
    ["    " ++ fd.retTypeSpelling ++ " out = (" ++ fd.retTypeSpelling ++ ")alloc_safe(sizeof("
       ++ fd.retPointeeSpelling ++ "));",
     "    make_unknown(out, sizeof(*out));",
     "    return out;"]
  | RetKind.other =>
    ["    " ++ fd.retTypeSpelling ++ " out;",
     "    make_unknown(&out, sizeof(out));",
     "    return out;"]

/-- The full stub emitted by `generate_driver_2.py` for one undefined
declaration: signature line, then `randomize_all_global_vars();` as the
first body statement, then the parameter lines, then the return lines,
then the closing brace. -/
def stubBlock (fd : FuncDecl) : List String :=
  (fd.retTypeSpelling ++ " " ++ fd.spelling ++ "(" ++ pyJoin ", " (stubSigParamList fd) ++ ") \x7b")
  :: "    randomize_all_global_vars();"
  :: (stubParamBodyLinesFrom 0 fd.params ++ stubRetLines fd ++ ["\x7d\n"])

/-- The stub emitted by the copy of `generate_driver_2` in
`standalone_driver_gen.py`: identical except that the signature has no
variadic handling at all. -/
def standaloneStubBlock (fd : FuncDecl) : List String :=
  (fd.retTypeSpelling ++ " " ++ fd.spelling ++ "("
     ++ pyJoin ", " (stubParamDeclsFrom 0 fd.params) ++ ") \x7b")
  :: "    randomize_all_global_vars();"
  :: (stubParamBodyLinesFrom 0 fd.params ++ stubRetLines fd ++ ["\x7d\n"])

/-- The declarations `generate_driver_2` stubs: every `FUNCTION_DECL`
cursor of the unit whose spelling is in `external_funcs` and that is
not a definition, in preorder. -/
def stubDecls (tu : TU) (externalFuncs : List String) : List FuncDecl :=
  tu.funcs.filter (fun fd => decide (fd.spelling ∈ externalFuncs) && !fd.isDefinition)

/-- The `randomize_all_global_vars` routine emitted by
`generate_driver_2`: one `make_unknown` call per requested global name
that is confirmed present as a `VAR_DECL` somewhere in the unit; names
not found are skipped (a warning is logged). -/
def randomizeLines (tu : TU) (globalVars : List String) : List String :=
  "void randomize_all_global_vars() \x7b"
  :: (globalVars.flatMap (fun v =>
        if v ∈ tu.allVarSpellings then
          ["    make_unknown(&" ++ v ++ ", sizeof(" ++ v ++ "));"]
        else [])
      ++ ["\x7d\n"])

/-- The fixed forward-declaration header of `generate_driver_2`. -/
def stubPrelude : List String :=
  ["// Forward declarations for utility functions.",
   "void make_unknown(void *data, unsigned long size);",
   "void *alloc_safe(unsigned long size);",
   "void _check_initialized(void *data, unsigned long size);",
   "#define check_initialized(x) _check_initialized(&(x), sizeof(x))\n"]

/-- All lines of the environment-stub part of the driver produced by
`generate_driver_2.py`. -/
def generate_driver_2_lines (tu : TU) (globalVars externalFuncs : List String) :
    List String :=
  stubPrelude ++ randomizeLines tu globalVars
  ++ (stubDecls tu externalFuncs).flatMap stubBlock

/-- Embedding of `generate_driver_2(preprocessed_file_path,
global_vars, external_funcs)`: the joined text, or `""` on a missing
file or failed parse. -/
def generate_driver_2 (fileExists : Bool) (parsed : Option TU)
    (globalVars externalFuncs : List String) : String :=
  if fileExists then
    match parsed with
    | some tu => pyJoin "\n" (generate_driver_2_lines tu globalVars externalFuncs)
    | none => ""
  else ""

/-- Specification-side stub signature from the claim: the
declaration's return type spelling, its name, each parameter's type and
name (synthesized as `arg<index>` when unnamed) in order, and a
trailing variadic marker whenever the declared function type is
variadic. -/
def specStubSignature (fd : FuncDecl) : String :=
  fd.retTypeSpelling ++ " " ++ fd.spelling ++ "("
  ++ pyJoin ", " (stubParamDeclsFrom 0 fd.params
       ++ (if fd.isVariadic then [if fd.params = [] then "void, ..." else "..."] else []))
  ++ ") \x7b"

/-! ## Final assembly (`main2.py` lines 52-67) -/

/-- The separator `main2.py` splits the entrypoint driver on. -/
def mainMarker : String := "int main() \x7b"

/-- The marker line including its newline, as it occurs in the
assembled driver text. -/
def mainMarkerNl : String := "int main() \x7b\n"

/-- Embedding of the assembly in `main2.py`: include of the original
file, the stub part, then a rewritten `main` whose first statement is
`randomize_all_global_vars();`, followed by the body that
`driver_part2.split("int main() {")[1]` recovers from the
entrypoint-call driver. -/
def assemble_driver (cName : String) (tu : TU) (globalVars externalFuncs entrypoints : List String) :
    String :=
  let part1 := generate_driver_2 true (some tu) globalVars externalFuncs
  let part2 := generate_driver cName true (some tu) entrypoints
  let mainFuncBody := (pySplit mainMarker part2).getD 1 ""
  "#include \"" ++ cName ++ "\"\n" ++ part1 ++ "\nint main() \x7b\n"
    ++ "    randomize_all_global_vars();\n" ++ mainFuncBody

/-- The text of the assembled driver that precedes the `int main() {`
line. -/
def preMainText (cName : String) (tu : TU) (globalVars externalFuncs : List String) : String :=
  "#include \"" ++ cName ++ "\"\n" ++ generate_driver_2 true (some tu) globalVars externalFuncs
    ++ "\n"

/-- The text of the assembled driver from just after the
`int main() {` line on: the inserted randomize call, then the recovered
entrypoint-call body. -/
def postMarkerText (cName : String) (tu : TU) (entrypoints : List String) : String :=
  "    randomize_all_global_vars();\n"
    ++ (pySplit mainMarker (generate_driver cName true (some tu) entrypoints)).getD 1 ""

/-! ## Preprocessor-flag recovery (`preprocess_c_file.py` lines 44-56
and the inlined copy in `main.py` lines 47-55) -/

/-- Embedding of the flag filter in `preprocess_c_file.py`: keep every
argument starting with `-I`, `-D` or `-U`; otherwise, keep `-isystem`,
`-I`, `-include`, `-D` or `-U` together with the following argument
(the bare `-I`/`-D`/`-U` cases are unreachable because the first branch
already matches them). -/
def preprocessor_options (args : List String) : List String :=
  args.enum.flatMap (fun ia =>
    if pyStartswith ia.2 "-I" || pyStartswith ia.2 "-D" || pyStartswith ia.2 "-U" then
      [ia.2]
    else if (ia.2 == "-isystem" || ia.2 == "-I" || ia.2 == "-include" || ia.2 == "-D"
             || ia.2 == "-U") && decide (ia.1 + 1 < args.length) then
      [ia.2, args.getD (ia.1 + 1) ""]
    else [])

/-- Embedding of the flag filter inlined in `main.py`: identical except
that its paired branch matches only `-isystem`. -/
def main_preprocessor_options (args : List String) : List String :=
  args.enum.flatMap (fun ia =>
    if pyStartswith ia.2 "-I" || pyStartswith ia.2 "-D" || pyStartswith ia.2 "-U" then
      [ia.2]
    else if (ia.2 == "-isystem") && decide (ia.1 + 1 < args.length) then
      [ia.2, args.getD (ia.1 + 1) ""]
    else [])

/-- The full preprocessor invocation built by `preprocess_c_file.py`:
`clang -E -P`, the recovered flags, and the target file. -/
def clang_command (args : List String) (filePath : String) : List String :=
  ["clang", "-E", "-P"] ++ preprocessor_options args ++ [filePath]

/-- Specification-side filter from the claim: exactly the flags
starting with `-I`, `-D` or `-U`, plus each `-isystem` or `-include`
token together with its immediately following argument; every other
flag is discarded. -/
def spec_preprocessor_options (args : List String) : List String :=
  args.enum.flatMap (fun ia =>
    if pyStartswith ia.2 "-I" || pyStartswith ia.2 "-D" || pyStartswith ia.2 "-U" then
      [ia.2]
    else if (ia.2 == "-isystem" || ia.2 == "-include") && decide (ia.1 + 1 < args.length) then
      [ia.2, args.getD (ia.1 + 1) ""]
    else [])

/-! ## Concrete example inputs used to instantiate the theorems -/

/-- Example unit for C1: a single analyzed function `f` whose only call
site is inside its own body (direct recursion). -/
def tuC1 : TU :=
  ⟨[Decl.func ⟨"f", true, [], "void", RetKind.void, "", false, ["f"], [], []⟩]⟩

/-- Example unit for C6: same shape as `tuC1`, one self-recursive
analyzed function `g`. -/
def tuC6 : TU :=
  ⟨[Decl.func ⟨"g", true, [], "void", RetKind.void, "", false, ["g"], [], []⟩]⟩

/-- Example unit for C10: two functions calling each other, so a
successful run genuinely produces an empty entrypoint set and empty
usage sets. -/
def tuC10 : TU :=
  ⟨[Decl.func ⟨"f", true, [], "void", RetKind.void, "", false, ["g"], [], []⟩,
    Decl.func ⟨"g", true, [], "void", RetKind.void, "", false, ["f"], [], []⟩]⟩

/-- Example entrypoint definition for C2: `void takes_ptr(int *a, char *b)`. -/
def fdC2 : FuncDecl :=
  ⟨"takes_ptr", true, [⟨"a", "int *", true, false⟩, ⟨"b", "char *", true, false⟩],
   "void", RetKind.void, "", false, [], [], []⟩

/-- Example unit for C2 containing only `takes_ptr`. -/
def tuC2 : TU := ⟨[Decl.func fdC2]⟩

/-- Example undefined external declaration for C3: `void ext(void)`. -/
def fdC3 : FuncDecl := ⟨"ext", false, [], "void", RetKind.void, "", false, [], [], []⟩

/-- Example unit for C3: one undefined external declaration. -/
def tuC3 : TU := ⟨[Decl.func fdC3]⟩

/-- Example undefined variadic declaration for C4:
`int my_printf(char *fmt, int i, ...)`. -/
def fdC4 : FuncDecl :=
  ⟨"my_printf", false, [⟨"fmt", "char *", true, false⟩, ⟨"i", "int", false, false⟩],
   "int", RetKind.other, "", true, [], [], []⟩

/-- Example unit for C4 containing only the variadic declaration. -/
def tuC4 : TU := ⟨[Decl.func fdC4]⟩

/-- Example analyzed function for C5: `m` references the non-const
translation-unit-level variable `g1` and the const one `g2`. -/
def fdC5 : FuncDecl :=
  ⟨"m", true, [], "void", RetKind.void, "", false, [],
   [RefTarget.var "g1" true false, RefTarget.var "g2" true true], []⟩

/-- Example unit for C5. -/
def tuC5 : TU := ⟨[Decl.func fdC5, Decl.var "g1", Decl.var "g2"]⟩

/-- Example unit for C7: analyzed `m` references global `g1` and calls
the undefined external `ext`. -/
def tuC7 : TU :=
  ⟨[Decl.func ⟨"m", true, [], "void", RetKind.void, "", false, ["ext"],
      [RefTarget.var "g1" true false, RefTarget.func "ext" false], []⟩,
    Decl.var "g1",
    Decl.func ⟨"ext", false, [], "void", RetKind.void, "", false, [], [], []⟩]⟩

/-- Parameter list for the C8 counterexample: an explicitly named
parameter `arg_1` followed by an unnamed parameter, which receives the
synthesized name `arg_1` as well. -/
def paramsC8 : List Param :=
  [⟨"arg_1", "int", false, false⟩, ⟨"", "int", false, false⟩]

/-- Parameter list for the C8 witness: a named parameter and an unnamed
one whose synthesized name cannot collide. -/
def paramsC8w : List Param :=
  [⟨"x", "int", false, false⟩, ⟨"", "char *", true, false⟩]

/-! ## Helper lemmas -/

theorem digitChar_toNat_of_lt (d : Nat) (h : d < 10) : (Nat.digitChar d).toNat = 48 + d := by
  interval_cases d <;> rfl

theorem strValAux_natReprAux : ∀ fuel n, n < fuel → strValAux (natReprAux fuel n) = n := by
  intro fuel
  induction fuel with
  | zero => intro n hn; omega
  | succ f ih =>
    intro n hn
    by_cases h : n < 10
    · simp only [natReprAux, if_pos h, strValAux, List.foldl]
      rw [digitChar_toNat_of_lt n h]
      omega
    · have hpos : 0 < n := by omega
      have hdiv : n / 10 < f := by
        have h1 : n / 10 < n := Nat.div_lt_self hpos (by omega)
        omega
      have e1 : strValAux (natReprAux f (n / 10)) = n / 10 := ih _ hdiv
      simp only [natReprAux, if_neg h]
      unfold strValAux at e1 ⊢
      rw [List.foldl_append, e1]
      simp only [List.foldl]
      rw [digitChar_toNat_of_lt (n % 10) (Nat.mod_lt n (by omega))]
      omega

theorem natRepr_injective (m n : Nat) (h : natRepr m = natRepr n) : m = n := by
  have hd : natReprAux (m + 1) m = natReprAux (n + 1) n := congrArg String.data h
  have h1 := strValAux_natReprAux (m + 1) m (by omega)
  have h2 := strValAux_natReprAux (n + 1) n (by omega)
  rw [hd] at h1
  omega

theorem strAppend_left_cancel (a b c : String) (h : a ++ b = a ++ c) : b = c := by
  have hd : a.data ++ b.data = a.data ++ c.data := by
    rw [← String.data_append, ← String.data_append, h]
  have hbc : b.data = c.data := List.append_cancel_left hd
  obtain ⟨db⟩ := b
  obtain ⟨dc⟩ := c
  exact congrArg String.mk hbc

/-! ## C1: entrypoint detection is one-hop set difference -/

/-- C1: for every analyzed name set `F` and parsed unit, the entrypoint
set computed by `find_entrypoints` equals `F` minus the one-hop callees
`{n ∈ F | some function defined in the unit whose name is in F contains
a call expression targeting n}`; consequently a function whose only
call site is inside its own body is excluded from the result (no
fixpoint or SCC computation happens: the result is this single set
difference). -/
theorem find_entrypoints_one_hop (tu : TU) (F : List String) :
    find_entrypoints true (some tu) F = F.toFinset \ oneHopCallees tu F ∧
    (∀ f : String, f ∈ F →
      (∃ fd ∈ tu.funcs, fd.isDefinition = true ∧ fd.spelling = f ∧ f ∈ fd.calls) →
      f ∉ find_entrypoints true (some tu) F) := by
  have hmain : find_entrypoints true (some tu) F = F.toFinset \ oneHopCallees tu F := by
    ext a
    simp only [find_entrypoints, if_true, Finset.mem_sdiff, List.mem_toFinset,
      calleesList, oneHopCallees, List.mem_flatMap, List.mem_filter,
      Bool.and_eq_true, decide_eq_true_eq, List.any_eq_true]
    aesop
  refine ⟨hmain, ?_⟩
  intro f hf hex
  rw [hmain]
  simp only [Finset.mem_sdiff, List.mem_toFinset, not_and, not_not]
  intro _
  obtain ⟨fd, hfd, hdef, hsp, hcall⟩ := hex
  simp only [oneHopCallees, List.mem_toFinset, List.mem_filter, List.any_eq_true,
    Bool.and_eq_true, decide_eq_true_eq]
  exact ⟨hf, fd, hfd, ⟨hdef, hsp ▸ hf⟩, hcall⟩

/-- Witness for C1 at a concrete input: in `tuC1` the function `f` is
analyzed and calls itself, and it is excluded from the entrypoint
set. -/
theorem find_entrypoints_one_hop_witness :
    ("f" ∈ ["f"] ∧ (∃ fd ∈ tuC1.funcs, fd.isDefinition = true ∧ fd.spelling = "f" ∧ "f" ∈ fd.calls)) ∧
    "f" ∉ find_entrypoints true (some tuC1) ["f"] :=
  ⟨⟨by decide, by decide⟩,
   (find_entrypoints_one_hop tuC1 ["f"]).2 "f" (by decide) (by decide)⟩

/-! ## C6: subset invariant and emptiness characterization -/

/-- C6 (amended): the entrypoint set is always a subset of the analyzed
name set, and it is empty only when every analyzed function is called
by some analyzed function — possibly by itself.  (The original claim
said "by another analyzed function"; the counterexample below shows a
self-recursive function falsifies that reading.) -/
theorem entrypoints_subset_and_emptiness (tu : TU) (F : List String) :
    find_entrypoints true (some tu) F ⊆ F.toFinset ∧
    (find_entrypoints true (some tu) F = ∅ →
      ∀ n ∈ F, ∃ fd ∈ tu.funcs, fd.isDefinition = true ∧ fd.spelling ∈ F ∧ n ∈ fd.calls) := by
  constructor
  · simp only [find_entrypoints, if_true]
    exact Finset.sdiff_subset
  · intro hemp n hn
    have h1 : n ∉ find_entrypoints true (some tu) F := by
      rw [hemp]; exact Finset.not_mem_empty n
    simp only [find_entrypoints, if_true, Finset.mem_sdiff, List.mem_toFinset, not_and,
      not_not] at h1
    have h2 := h1 hn
    simp only [calleesList, List.mem_flatMap, List.mem_filter, Bool.and_eq_true,
      decide_eq_true_eq] at h2
    obtain ⟨fd, ⟨hfd, hdef, hsp⟩, hcall, _⟩ := h2
    exact ⟨fd, hfd, hdef, hsp, hcall⟩

/-- Counterexample for C6 as stated: in `tuC6` the only analyzed
function `g` calls only itself, so the entrypoint set is empty, yet it
is not the case that every analyzed function is called by **another**
analyzed function (a caller distinct from it). -/
theorem entrypoints_empty_self_call_counterexample :
    find_entrypoints true (some tuC6) ["g"] = ∅ ∧
    ¬ (∀ n ∈ ["g"], ∃ fd ∈ tuC6.funcs,
        fd.isDefinition = true ∧ fd.spelling ∈ ["g"] ∧ fd.spelling ≠ n ∧ n ∈ fd.calls) := by
  decide

/-- Witness for C6 at a concrete input: the entrypoint set of `tuC6` is
empty, and the amended characterization produces an analyzed caller for
`g`. -/
theorem entrypoints_subset_and_emptiness_witness :
    find_entrypoints true (some tuC6) ["g"] = ∅ ∧
    (∃ fd ∈ tuC6.funcs, fd.isDefinition = true ∧ fd.spelling ∈ ["g"] ∧ "g" ∈ fd.calls) :=
  ⟨by decide, (entrypoints_subset_and_emptiness tuC6 ["g"]).2 (by decide) "g" (by decide)⟩

/-! ## C10: error outcomes are in-band empty results -/

/-- C10: when the preprocessed file is missing or the translation unit
does not parse, `find_entrypoints` returns the empty set and
`find_globals_and_externs` returns empty `global_vars` and
`external_funcs` (under both const-exclusion behaviors), with no
exception; these outcomes coincide exactly with a successful run whose
analysis is genuinely empty (`tuC10`: two functions calling each
other, no global or external references). -/
theorem analysis_error_outcomes_in_band :
    (∀ (parsed : Option TU) (F : List String), find_entrypoints false parsed F = ∅) ∧
    (∀ F : List String, find_entrypoints true none F = ∅) ∧
    (∀ (excludeConst : Bool) (parsed : Option TU) (F : List String),
      find_globals_and_externs excludeConst false parsed F = ⟨∅, ∅⟩) ∧
    (∀ (excludeConst : Bool) (F : List String),
      find_globals_and_externs excludeConst true none F = ⟨∅, ∅⟩) ∧
    find_entrypoints true (some tuC10) ["f", "g"] = find_entrypoints false none ["f", "g"] ∧
    find_globals_and_externs true true (some tuC10) ["f", "g"]
      = find_globals_and_externs true false none ["f", "g"] :=
  ⟨fun _ _ => rfl, fun _ => rfl, fun _ _ _ => rfl, fun _ _ => rfl, by decide, by decide⟩

/-! ## C5: non-const globals are reported under both behaviors -/

/-- C5: a reference inside an analyzed function that resolves to a
non-const variable declaration whose semantic parent is the translation
unit is reported in `global_vars`, under both const-exclusion behaviors
present in the source (`excludeConst = true` is
`find_globals_and_externs.py`, `excludeConst = false` is the
`standalone_driver_gen.py` copy). -/
theorem nonconst_global_always_included (excludeConst : Bool) (tu : TU) (F : List String)
    (fd : FuncDecl) (s : String) (hfd : fd ∈ tu.funcs) (hdef : fd.isDefinition = true)
    (hF : fd.spelling ∈ F) (href : RefTarget.var s true false ∈ fd.refs) :
    s ∈ (find_globals_and_externs excludeConst true (some tu) F).global_vars := by
  simp only [find_globals_and_externs, if_true, List.mem_toFinset, List.mem_flatMap,
    List.mem_filter, Bool.and_eq_true, decide_eq_true_eq, List.mem_filterMap]
  refine ⟨fd, ⟨hfd, hdef, hF⟩, RefTarget.var s true false, href, ?_⟩
  cases excludeConst <;> rfl

/-- Witness for C5 at a concrete input: `g1` is reported by both
behaviors on `tuC5`. -/
theorem nonconst_global_always_included_witness :
    "g1" ∈ (find_globals_and_externs true true (some tuC5) ["m"]).global_vars ∧
    "g1" ∈ (find_globals_and_externs false true (some tuC5) ["m"]).global_vars :=
  ⟨nonconst_global_always_included true tuC5 ["m"] fdC5 "g1" (by decide) (by decide)
     (by decide) (by decide),
   nonconst_global_always_included false tuC5 ["m"] fdC5 "g1" (by decide) (by decide)
     (by decide) (by decide)⟩

/-! ## C7: global_vars and external_funcs are disjoint -/

/-- Inversion for `refGlobalVar`: it reports `s` only for a reference
to a translation-unit-level variable declaration named `s`. -/
theorem refGlobalVar_inv (excludeConst : Bool) (r : RefTarget) (s : String)
    (h : refGlobalVar excludeConst r = some s) : ∃ c, r = RefTarget.var s true c := by
  cases r with
  | var t pTU c =>
    simp only [refGlobalVar] at h
    split at h
    · rename_i hcond
      rw [Bool.and_eq_true] at hcond
      obtain ⟨hp, -⟩ := hcond
      obtain rfl : t = s := Option.some.inj h
      exact ⟨c, by rw [hp]⟩
    · exact absurd h (by simp)
  | func t d => simp [refGlobalVar] at h
  | otherDecl => simp [refGlobalVar] at h

/-- Inversion for `refExternFunc`: it reports `s` only for a reference
to a non-definition function declaration named `s` outside the analyzed
set. -/
theorem refExternFunc_inv (F : List String) (r : RefTarget) (s : String)
    (h : refExternFunc F r = some s) : r = RefTarget.func s false ∧ s ∉ F := by
  cases r with
  | var t pTU c => simp [refExternFunc] at h
  | func t d =>
    simp only [refExternFunc] at h
    split at h
    · rename_i hcond
      rw [Bool.and_eq_true] at hcond
      obtain ⟨hd, hnF⟩ := hcond
      obtain rfl : t = s := Option.some.inj h
      refine ⟨by rw [show d = false from by revert hd; cases d <;> simp], ?_⟩
      intro hs
      rw [Bool.not_eq_true', decide_eq_false_iff_not] at hnF
      exact hnF hs
    · exact absurd h (by simp)
  | otherDecl => simp [refExternFunc] at h

/-- C7: in one run of the usage analyzer on a parsed unit whose
references never resolve the same name both to a translation-unit-level
variable and to a function (C's file-scope name space guarantees this),
no name is reported in both `global_vars` and `external_funcs`. -/
theorem globals_externs_disjoint (excludeConst : Bool) (tu : TU) (F : List String)
    (h : ∀ r1 ∈ allRefs tu, ∀ r2 ∈ allRefs tu, varFuncClash r1 r2 = false) :
    ∀ s : String,
      s ∈ (find_globals_and_externs excludeConst true (some tu) F).global_vars →
      s ∉ (find_globals_and_externs excludeConst true (some tu) F).external_funcs := by
  intro s hg he
  simp only [find_globals_and_externs, if_true, List.mem_toFinset, List.mem_flatMap,
    List.mem_filter, Bool.and_eq_true, decide_eq_true_eq, List.mem_filterMap] at hg he
  obtain ⟨fd1, ⟨hfd1, -, -⟩, r1, hr1, hg1⟩ := hg
  obtain ⟨fd2, ⟨hfd2, -, -⟩, r2, hr2, he2⟩ := he
  obtain ⟨c, rfl⟩ := refGlobalVar_inv excludeConst r1 s hg1
  obtain ⟨rfl, -⟩ := refExternFunc_inv F r2 s he2
  have hm1 : RefTarget.var s true c ∈ allRefs tu := by
    simp only [allRefs, List.mem_flatMap]
    exact ⟨fd1, hfd1, hr1⟩
  have hm2 : RefTarget.func s false ∈ allRefs tu := by
    simp only [allRefs, List.mem_flatMap]
    exact ⟨fd2, hfd2, hr2⟩
  have := h _ hm1 _ hm2
  simp [varFuncClash] at this

/-- Witness for C7 at a concrete input: `tuC7` has no var/func name
clash, `g1` is reported as a global, and it is absent from
`external_funcs`. -/
theorem globals_externs_disjoint_witness :
    ((∀ r1 ∈ allRefs tuC7, ∀ r2 ∈ allRefs tuC7, varFuncClash r1 r2 = false) ∧
      "g1" ∈ (find_globals_and_externs true true (some tuC7) ["m"]).global_vars) ∧
    "g1" ∉ (find_globals_and_externs true true (some tuC7) ["m"]).external_funcs :=
  ⟨⟨by decide, by decide⟩,
   globals_externs_disjoint true tuC7 ["m"] (by decide) "g1" (by decide)⟩

/-! ## C2: per-entrypoint block structure -/

/-- The per-parameter loop of `generate_driver` equals the
specification-side description: names are the parameter's own spelling
or `arg_<position>`, and each parameter contributes its declaration
line immediately followed by its fill line, in declaration order. -/
theorem entryParamFold_spec (params : List Param) :
    ∀ (argNames lines : List String),
      entryParamFold params argNames lines =
        (argNames ++ specArgNamesFrom argNames.length params,
         lines ++ specParamLinesFrom argNames.length params) := by
  induction params with
  | nil => intro a l; simp [entryParamFold, specArgNamesFrom, specParamLinesFrom]
  | cons p rest ih =>
    intro a l
    simp only [entryParamFold, specArgNamesFrom, specParamLinesFrom]
    rw [ih]
    simp [List.length_append, List.append_assoc]

/-- C2: for every entrypoint found in the definition lookup, the
emitted block consists of, per parameter in declaration order, a local
declaration with the parameter's exact type spelling followed by an
unconstrained-fill request (`max(16, sizeof(*name))` bytes at the
address of the pointer variable itself when the parameter is a pointer,
`sizeof(name)` bytes otherwise — see `paramFillLine`), and then exactly
one call to the entrypoint with the argument names in original
declaration order. -/
theorem generate_driver_entry_block_spec (tu : TU) (e : String) (fd : FuncDecl)
    (h : lookupDef tu e = some fd) :
    entryLines tu e =
      "    \x7b" :: (specParamLinesFrom 0 fd.params
        ++ ["        " ++ e ++ "(" ++ pyJoin ", " (specArgNamesFrom 0 fd.params) ++ ");",
            "    \x7d"]) := by
  simp only [entryLines, h, entryBlock, entryParamFold_spec]
  simp

/-- Witness for C2 at a concrete input: the block generated for
`takes_ptr(int *a, char *b)` matches Scenario E of the
specification. -/
theorem generate_driver_entry_block_spec_witness :
    lookupDef tuC2 "takes_ptr" = some fdC2 ∧
    entryLines tuC2 "takes_ptr" =
      ["    \x7b",
       "        int * a;",
       "        make_unknown(&a, max(16, sizeof(*a)));",
       "        char * b;",
       "        make_unknown(&b, max(16, sizeof(*b)));",
       "        takes_ptr(a, b);",
       "    \x7d"] :=
  ⟨by decide,
   by rw [generate_driver_entry_block_spec tuC2 "takes_ptr" fdC2 (by decide)]; decide⟩

/-! ## C8: uniqueness of argument names within one entrypoint block -/

/-- Every name produced by `specArgNamesFrom k params` is either the
explicit (non-empty) spelling of one of the parameters or a synthesized
`arg_<j>` with `j` in the index range of the block. -/
theorem mem_specArgNamesFrom (s : String) :
    ∀ (params : List Param) (k : Nat), s ∈ specArgNamesFrom k params →
      (∃ p ∈ params, p.spelling = s ∧ s ≠ "") ∨
      (∃ j, k ≤ j ∧ j < k + params.length ∧ s = "arg_" ++ natRepr j) := by
  intro params
  induction params with
  | nil => intro k h; simp [specArgNamesFrom] at h
  | cons p rest ih =>
    intro k h
    simp only [specArgNamesFrom] at h
    rcases List.mem_cons.mp h with hhd | htl
    · by_cases hp : p.spelling = ""
      · rw [if_pos hp] at hhd
        exact Or.inr ⟨k, le_refl k, by simp, hhd⟩
      · rw [if_neg hp] at hhd
        exact Or.inl ⟨p, List.mem_cons_self p rest, hhd.symm, hhd ▸ hp⟩
    · rcases ih (k + 1) htl with ⟨q, hq, hqs, hne⟩ | ⟨j, hj1, hj2, hjs⟩
      · exact Or.inl ⟨q, List.mem_cons_of_mem p hq, hqs, hne⟩
      · refine Or.inr ⟨j, by omega, ?_, hjs⟩
        simp only [List.length_cons]
        omega

/-- The argument names of one block are pairwise distinct, provided the
explicitly named parameters have pairwise distinct names and no
explicit name collides with a synthesized `arg_<index>` name. -/
theorem specArgNamesFrom_nodup :
    ∀ (params : List Param) (k : Nat),
      ((params.map Param.spelling).filter (fun s => !(s == ""))).Nodup →
      (∀ p ∈ params, p.spelling ≠ "" → ∀ j, k ≤ j → j < k + params.length →
        p.spelling ≠ "arg_" ++ natRepr j) →
      (specArgNamesFrom k params).Nodup := by
  intro params
  induction params with
  | nil => intro k _ _; simp [specArgNamesFrom]
  | cons p rest ih =>
    intro k h1 h2
    simp only [specArgNamesFrom]
    rw [List.nodup_cons]
    have hlen : (p :: rest).length = rest.length + 1 := by simp
    constructor
    · intro hmem
      by_cases hp : p.spelling = ""
      · rw [if_pos hp] at hmem
        rcases mem_specArgNamesFrom _ rest (k + 1) hmem with ⟨q, hq, hqs, hqne⟩ | ⟨j, hj1, hj2, hjs⟩
        · exact h2 q (List.mem_cons_of_mem p hq) (hqs ▸ hqne) k (le_refl k)
            (by rw [hlen]; omega) hqs
        · have hkj : k = j :=
            natRepr_injective k j (strAppend_left_cancel "arg_" (natRepr k) (natRepr j) hjs)
          omega
      · rw [if_neg hp] at hmem
        rcases mem_specArgNamesFrom _ rest (k + 1) hmem with ⟨q, hq, hqs, hqne⟩ | ⟨j, hj1, hj2, hjs⟩
        · have hfil : (List.filter (fun s => !(s == "")) (List.map Param.spelling (p :: rest)))
              = p.spelling :: List.filter (fun s => !(s == "")) (List.map Param.spelling rest) := by
            simp [List.filter_cons, hp]
          rw [hfil, List.nodup_cons] at h1
          refine h1.1 ?_
          rw [List.mem_filter]
          exact ⟨List.mem_map.mpr ⟨q, hq, hqs⟩, by simp [hp]⟩
        · exact h2 p (List.mem_cons_self p rest) hp j (by omega) (by rw [hlen]; omega) hjs
    · refine ih (k + 1) ?_ ?_
      · by_cases hp : p.spelling = ""
        · have hfil : (List.filter (fun s => !(s == "")) (List.map Param.spelling (p :: rest)))
              = List.filter (fun s => !(s == "")) (List.map Param.spelling rest) := by
            simp [List.filter_cons, hp]
          rwa [hfil] at h1
        · have hfil : (List.filter (fun s => !(s == "")) (List.map Param.spelling (p :: rest)))
              = p.spelling :: List.filter (fun s => !(s == "")) (List.map Param.spelling rest) := by
            simp [List.filter_cons, hp]
          rw [hfil, List.nodup_cons] at h1
          exact h1.2
      · intro q hq hqne j hj1 hj2
        exact h2 q (List.mem_cons_of_mem p hq) hqne j (by omega) (by rw [hlen]; omega)

/-- C8 (amended): within one entrypoint block the argument names
(declared names, fill targets, call arguments) are pairwise distinct,
provided the explicitly named source parameters have pairwise distinct
names and no explicit parameter name has the form `arg_<index>` for an
index below the parameter count.  (The counterexample below shows the
unconditional claim fails: an explicit parameter named `arg_1`
followed by an unnamed parameter yields the name `arg_1` twice.) -/
theorem entry_block_arg_names_nodup (params : List Param)
    (h1 : ((params.map Param.spelling).filter (fun s => !(s == ""))).Nodup)
    (h2 : ∀ p ∈ params, p.spelling ≠ "" → ∀ j < params.length,
      p.spelling ≠ "arg_" ++ natRepr j) :
    (entryParamFold params [] ["    \x7b"]).1.Nodup := by
  rw [entryParamFold_spec]
  simp only [List.length_nil, List.nil_append]
  exact specArgNamesFrom_nodup params 0 h1
    (fun p hp hne j _ hj2 => h2 p hp hne j (by omega))

/-- Counterexample for C8 as stated: on `paramsC8` (explicit `arg_1`
followed by an unnamed parameter) the generator uses the name `arg_1`
for both parameters, so the block's names are not pairwise
distinct. -/
theorem entry_block_arg_names_counterexample :
    (entryParamFold paramsC8 [] ["    \x7b"]).1 = ["arg_1", "arg_1"] ∧
    ¬ (entryParamFold paramsC8 [] ["    \x7b"]).1.Nodup := by
  decide

/-- Witness for C8 at a concrete input: on `paramsC8w` the hypotheses
hold and the names are pairwise distinct. -/
theorem entry_block_arg_names_nodup_witness :
    (((paramsC8w.map Param.spelling).filter (fun s => !(s == ""))).Nodup ∧
      (∀ p ∈ paramsC8w, p.spelling ≠ "" → ∀ j < paramsC8w.length,
        p.spelling ≠ "arg_" ++ natRepr j)) ∧
    (entryParamFold paramsC8w [] ["    \x7b"]).1.Nodup :=
  ⟨⟨by decide, by decide⟩,
   entry_block_arg_names_nodup paramsC8w (by decide) (by decide)⟩

/-! ## C4: stub signature reconstruction -/

/-- The signature parameter list built by `generate_driver_2.py`
equals the specification-side form: the per-parameter items followed by
the variadic marker exactly when the declaration is variadic. -/
theorem stubSigParamList_spec (fd : FuncDecl) :
    stubSigParamList fd = stubParamDeclsFrom 0 fd.params
      ++ (if fd.isVariadic then [if fd.params = [] then "void, ..." else "..."] else []) := by
  cases hv : fd.isVariadic with
  | false => simp [stubSigParamList, hv]
  | true =>
    cases hp : fd.params with
    | nil => simp [stubSigParamList, hv, hp, stubParamDeclsFrom]
    | cons p rest => simp [stubSigParamList, hv, hp, stubParamDeclsFrom]

/-- C4 (amended): for every name in `external_funcs` matching a
non-definition declaration, the stub emitted by `generate_driver_2.py`
reconstructs the declaration's exact signature — return type spelling,
each parameter's type and name (synthesized as `arg<index>` when
unnamed) in order, and a trailing variadic marker whenever the declared
function type is variadic — while the copy in
`standalone_driver_gen.py` reconstructs the same signature without any
variadic marker. -/
theorem stub_signature_reconstruction (tu : TU) (externalFuncs : List String) (fd : FuncDecl)
    (h : fd ∈ stubDecls tu externalFuncs) :
    (stubBlock fd)[0]? = some (specStubSignature fd) ∧
    (standaloneStubBlock fd)[0]? =
      some (fd.retTypeSpelling ++ " " ++ fd.spelling ++ "("
        ++ pyJoin ", " (stubParamDeclsFrom 0 fd.params) ++ ") \x7b") := by
  refine ⟨?_, rfl⟩
  simp [stubBlock, specStubSignature, stubSigParamList_spec]

/-- Counterexample for C4 as stated: for the variadic declaration
`int my_printf(char *fmt, int i, ...)` the `standalone_driver_gen.py`
stub generator emits a signature without the trailing variadic
marker. -/
theorem stub_variadic_marker_counterexample :
    (standaloneStubBlock fdC4)[0]? = some "int my_printf(char * fmt, int i) \x7b" ∧
    specStubSignature fdC4 = "int my_printf(char * fmt, int i, ...) \x7b" ∧
    (standaloneStubBlock fdC4)[0]? ≠ some (specStubSignature fdC4) := by
  decide

/-- Witness for C4 at a concrete input: the `generate_driver_2.py` stub
for `my_printf` carries the variadic marker. -/
theorem stub_signature_reconstruction_witness :
    fdC4 ∈ stubDecls tuC4 ["my_printf"] ∧
    (stubBlock fdC4)[0]? = some (specStubSignature fdC4) :=
  ⟨by decide, (stub_signature_reconstruction tuC4 ["my_printf"] fdC4 (by decide)).1⟩

/-! ## C9: preprocessor flag recovery -/

/-- List `flatMap` respects pointwise equality on members. -/
theorem flatMap_congr_mem {α β : Type} (l : List α) (f g : α → List β)
    (h : ∀ x ∈ l, f x = g x) : l.flatMap f = l.flatMap g := by
  induction l with
  | nil => rfl
  | cons a rest ih =>
    simp only [List.flatMap_cons] at *
    rw [h a (List.mem_cons_self a rest), ih (fun x hx => h x (List.mem_cons_of_mem a hx))]

/-- On every argument, the branch taken by the filter in
`preprocess_c_file.py` coincides with the specification-side filter:
the extra `-I`/`-D`/`-U` alternatives of its paired branch are dead
because the first branch already matches them. -/
theorem preproc_elem_eq (args : List String) (ia : Nat × String) :
    (if pyStartswith ia.2 "-I" || pyStartswith ia.2 "-D" || pyStartswith ia.2 "-U" then [ia.2]
     else if (ia.2 == "-isystem" || ia.2 == "-I" || ia.2 == "-include" || ia.2 == "-D"
              || ia.2 == "-U") && decide (ia.1 + 1 < args.length) then
       [ia.2, args.getD (ia.1 + 1) ""]
     else []) =
    (if pyStartswith ia.2 "-I" || pyStartswith ia.2 "-D" || pyStartswith ia.2 "-U" then [ia.2]
     else if (ia.2 == "-isystem" || ia.2 == "-include") && decide (ia.1 + 1 < args.length) then
       [ia.2, args.getD (ia.1 + 1) ""]
     else []) := by
  by_cases h1 : (pyStartswith ia.2 "-I" || pyStartswith ia.2 "-D" || pyStartswith ia.2 "-U") = true
  · rw [if_pos h1, if_pos h1]
  · rw [if_neg h1, if_neg h1]
    have hI : (ia.2 == "-I") = false := by
      cases hbe : (ia.2 == "-I")
      · rfl
      · exfalso; apply h1; rw [eq_of_beq hbe]; decide
    have hD : (ia.2 == "-D") = false := by
      cases hbe : (ia.2 == "-D")
      · rfl
      · exfalso; apply h1; rw [eq_of_beq hbe]; decide
    have hU : (ia.2 == "-U") = false := by
      cases hbe : (ia.2 == "-U")
      · rfl
      · exfalso; apply h1; rw [eq_of_beq hbe]; decide
    rw [hI, hD, hU]
    simp

/-- On every argument that is not `-include`, the filter inlined in
`main.py` coincides with the specification-side filter. -/
theorem main_preproc_elem_eq (args : List String) (ia : Nat × String) (h : ia.2 ≠ "-include") :
    (if pyStartswith ia.2 "-I" || pyStartswith ia.2 "-D" || pyStartswith ia.2 "-U" then [ia.2]
     else if (ia.2 == "-isystem") && decide (ia.1 + 1 < args.length) then
       [ia.2, args.getD (ia.1 + 1) ""]
     else []) =
    (if pyStartswith ia.2 "-I" || pyStartswith ia.2 "-D" || pyStartswith ia.2 "-U" then [ia.2]
     else if (ia.2 == "-isystem" || ia.2 == "-include") && decide (ia.1 + 1 < args.length) then
       [ia.2, args.getD (ia.1 + 1) ""]
     else []) := by
  by_cases h1 : (pyStartswith ia.2 "-I" || pyStartswith ia.2 "-D" || pyStartswith ia.2 "-U") = true
  · rw [if_pos h1, if_pos h1]
  · rw [if_neg h1, if_neg h1]
    have hinc : (ia.2 == "-include") = false := beq_eq_false_iff_ne.mpr h
    rw [hinc]
    simp

/-- C9 (amended): the invocation built by `preprocess_c_file.py` passes
exactly `clang -E -P`, then the flags starting with `-I`, `-D` or `-U`
plus each `-isystem` or `-include` token with its immediately following
argument (every other flag discarded), then the target file; the copy
inlined in `main.py` implements the same filter except that its paired
branch handles only `-isystem`, so it agrees with the claimed behavior
exactly on argument lists that contain no `-include` token. -/
theorem preprocessor_flags_spec (args : List String) (filePath : String) :
    clang_command args filePath
      = ["clang", "-E", "-P"] ++ spec_preprocessor_options args ++ [filePath] ∧
    ("-include" ∉ args → main_preprocessor_options args = spec_preprocessor_options args) := by
  constructor
  · have he : preprocessor_options args = spec_preprocessor_options args := by
      unfold preprocessor_options spec_preprocessor_options
      exact flatMap_congr_mem _ _ _ (fun ia _ => preproc_elem_eq args ia)
    simp only [clang_command, he]
  · intro hni
    unfold main_preprocessor_options spec_preprocessor_options
    refine flatMap_congr_mem _ _ _ (fun ia hia => ?_)
    refine main_preproc_elem_eq args ia (fun hcontra => hni ?_)
    obtain ⟨i, a⟩ := ia
    obtain ⟨hlt, ha⟩ := List.mem_enum hia
    rw [← hcontra, ha]
    exact List.getElem_mem hlt

/-- Counterexample for C9 as stated: on the compile-command arguments
`["-include", "config.h"]` the filter inlined in `main.py` discards
both tokens, while the claim requires them to be kept (as
`preprocess_c_file.py` indeed does). -/
theorem preprocessor_include_counterexample :
    main_preprocessor_options ["-include", "config.h"] = [] ∧
    spec_preprocessor_options ["-include", "config.h"] = ["-include", "config.h"] ∧
    preprocessor_options ["-include", "config.h"] = ["-include", "config.h"] := by
  decide

/-- Witness for C9 at a concrete input: on an `-include`-free argument
list the `main.py` filter agrees with the specification filter. -/
theorem preprocessor_flags_spec_witness :
    ("-include" ∉ ["-DFOO", "-isystem", "/usr/inc", "-O2", "-c"]) ∧
    main_preprocessor_options ["-DFOO", "-isystem", "/usr/inc", "-O2", "-c"]
      = spec_preprocessor_options ["-DFOO", "-isystem", "/usr/inc", "-O2", "-c"] :=
  ⟨by decide,
   (preprocessor_flags_spec ["-DFOO", "-isystem", "/usr/inc", "-O2", "-c"] "f.c").2 (by decide)⟩

/-! ## C3: randomize-all-globals runs first in stubs and in main -/

theorem isPrefixOf_append_self (a b : List Char) : a.isPrefixOf (a ++ b) = true := by
  induction a with
  | nil => simp [List.isPrefixOf]
  | cons c rest ih => simp [List.isPrefixOf, ih]

theorem afterFirstAux_cons_pos (sep : List Char) (c : Char) (cs : List Char)
    (h : sep.isPrefixOf (c :: cs) = true) :
    afterFirstAux sep (c :: cs) = some (List.drop sep.length (c :: cs)) := by
  simp [afterFirstAux, h]

theorem afterFirstAux_cons_neg (sep : List Char) (c : Char) (cs : List Char)
    (h : sep.isPrefixOf (c :: cs) = false) :
    afterFirstAux sep (c :: cs) = afterFirstAux sep cs := by
  simp [afterFirstAux, h]

/-- When the only occurrence of `sep` that starts before the suffix
`sep ++ y` is the explicit one (no suffix of the whole text longer than
`sep ++ y` begins with `sep`), the text after the first occurrence of
`sep` in `x ++ sep ++ y` is exactly `y`. -/
theorem afterFirstAux_append (sep y : List Char) (hsep : sep ≠ []) :
    ∀ x : List Char,
      (∀ t ∈ (x ++ (sep ++ y)).tails, (sep ++ y).length < t.length →
        sep.isPrefixOf t = false) →
      afterFirstAux sep (x ++ (sep ++ y)) = some y := by
  intro x
  induction x with
  | nil =>
    intro _
    rw [List.nil_append]
    cases hs : sep with
    | nil => exact absurd hs hsep
    | cons s0 srest =>
      subst hs
      have h1 : (s0 :: srest).isPrefixOf ((s0 :: srest) ++ y) = true :=
        isPrefixOf_append_self _ _
      rw [List.cons_append] at h1 ⊢
      rw [afterFirstAux_cons_pos _ _ _ h1, ← List.cons_append, List.drop_left]
  | cons a xr ih =>
    intro H
    rw [List.cons_append]
    have hwhole : sep.isPrefixOf (a :: (xr ++ (sep ++ y))) = false := by
      apply H
      · exact (List.mem_tails _ _).mpr ⟨[], by simp⟩
      · simp only [List.length_cons, List.length_append]
        omega
    rw [afterFirstAux_cons_neg _ _ _ hwhole]
    apply ih
    intro t ht hlen
    refine H t ?_ hlen
    rw [List.mem_tails] at ht ⊢
    obtain ⟨u, hu⟩ := ht
    exact ⟨a :: u, by rw [List.cons_append, hu, List.cons_append]⟩

theorem strMk_data (s : String) : String.mk s.data = s := by
  cases s; rfl

theorem strEq_of_data (s t : String) (h : s.data = t.data) : s = t := by
  cases s; cases t; exact congrArg String.mk h

/-- The assembled driver text decomposes as the part before `main`,
the `int main() {` line, and the part after it. -/
theorem assemble_driver_decomp (cName : String) (tu : TU) (gv ef eps : List String) :
    assemble_driver cName tu gv ef eps
      = preMainText cName tu gv ef ++ (mainMarkerNl ++ postMarkerText cName tu eps) := by
  refine strEq_of_data _ _ ?_
  simp only [assemble_driver, preMainText, postMarkerText, mainMarkerNl, String.data_append,
    List.append_assoc]
  simp [List.cons_append, List.append_assoc]

/-- The first line after the inserted randomize call is that call,
whatever follows it. -/
theorem firstLine_randomize (r : String) :
    firstLineOf ("    randomize_all_global_vars();\n" ++ r)
      = "    randomize_all_global_vars();" := by
  obtain ⟨d⟩ := r
  rfl

/-- C3: in the final assembled driver, (a) the environment-stub part
consists of the fixed prelude, the randomize-all-globals routine, and
one stub per matching declaration, and every synthesized stub has the
call `randomize_all_global_vars();` as its first statement (the line
right after its signature); and (b) whenever the literal
`int main() {` line occurs nowhere before its inserted position (the
hypothesis below, true of any actual run), the text after the first
`int main() {` line of the assembled driver starts with
`randomize_all_global_vars();` as the first statement of the driver's
entry function, before any entrypoint call (all entrypoint blocks lie
in the remainder). -/
theorem driver_randomize_first (cName : String) (tu : TU) (gv ef eps : List String) :
    (generate_driver_2_lines tu gv ef
        = stubPrelude ++ randomizeLines tu gv ++ (stubDecls tu ef).flatMap stubBlock ∧
      ∀ fd ∈ stubDecls tu ef,
        (stubBlock fd).get? 1 = some "    randomize_all_global_vars();") ∧
    ((∀ t ∈ (assemble_driver cName tu gv ef eps).data.tails,
        (mainMarkerNl ++ postMarkerText cName tu eps).data.length < t.length →
        mainMarkerNl.data.isPrefixOf t = false) →
      afterFirst mainMarkerNl (assemble_driver cName tu gv ef eps)
          = some (postMarkerText cName tu eps) ∧
      firstLineOf (postMarkerText cName tu eps) = "    randomize_all_global_vars();") := by
  refine ⟨⟨rfl, fun fd _ => rfl⟩, ?_⟩
  intro H
  have hd := assemble_driver_decomp cName tu gv ef eps
  rw [hd] at H ⊢
  rw [String.data_append, String.data_append] at H
  constructor
  · show (afterFirstAux mainMarkerNl.data
      (preMainText cName tu gv ef ++ (mainMarkerNl ++ postMarkerText cName tu eps)).data).map
        String.mk = some (postMarkerText cName tu eps)
    rw [String.data_append, String.data_append]
    rw [afterFirstAux_append mainMarkerNl.data (postMarkerText cName tu eps).data
      (by decide) (preMainText cName tu gv ef).data H]
    simp [strMk_data]
  · simp only [postMarkerText]
    exact firstLine_randomize _

set_option maxHeartbeats 4000000 in
set_option maxRecDepth 10000 in
/-- Witness for C3 at a concrete input: on `tuC3` (one external
declaration `ext`, no globals, no entrypoints) the stub for `ext` has
the randomize call as its first statement, and in the assembled driver
the first line after `int main() {` is the randomize call. -/
theorem driver_randomize_first_witness :
    (fdC3 ∈ stubDecls tuC3 ["ext"] ∧
      (stubBlock fdC3).get? 1 = some "    randomize_all_global_vars();") ∧
    (afterFirst mainMarkerNl (assemble_driver "app.c" tuC3 [] ["ext"] [])
        = some (postMarkerText "app.c" tuC3 []) ∧
      firstLineOf (postMarkerText "app.c" tuC3 []) = "    randomize_all_global_vars();") :=
  ⟨⟨by decide, (driver_randomize_first "app.c" tuC3 [] ["ext"] []).1.2 fdC3 (by decide)⟩,
   (driver_randomize_first "app.c" tuC3 [] ["ext"] []).2 (by decide)⟩
